import Mathlib

/-!
Shallow embedding of the fittrek workout-statistics core:
the log store (`src/server/storage.ts`, class `MemStorage`), the shared
schema (`@shared/schema`), and the query-surface routes
(`src/server/routes.ts`, handlers for `POST /api/logs` and
`GET /api/stats`).

Modelling conventions:
* timestamps (`Date`) are `Int` milliseconds since the epoch
  (`Date.prototype.getTime`); `>=` / `<=` on `Date` compares these values;
* JS numbers occurring in the data are integer-valued and modelled as `Int`;
  the two derived fields computed by division (`averageWaterPerWorkout`,
  `completionPercentage`) are modelled as exact rationals `Rat`, following
  the spec's reading of `/` as real-number division;
* `null` / `undefined` on an optional field are `Option`;
* the JS `Map` holding the logs is an insertion-ordered association list:
  `Map.set` replaces in place when the key exists and appends otherwise,
  `Array.from(map.values())` lists values in that order;
* `Array.prototype.sort` (stable since ES2019) with comparator
  `(a, b) => b.date.getTime() - a.date.getTime()` is a stable sort by
  non-increasing date; all stable sorts of a list under a total preorder
  agree, so it is embedded as `List.insertionSort` with the non-strict
  relation `dateGE a b = (b.date <= a.date)`, which is stable and orders
  by non-increasing date.
-/

namespace FitTrek

/-- A persisted workout log record (table `workoutLogs` in the schema:
`id`, `userId`, nullable `workoutId`, `date` timestamp, and the three
numeric fields with default 0, nullable `notes`). -/
structure WorkoutLog where
  id : Nat
  userId : Nat
  workoutId : Option Int
  date : Int
  completedExercises : Int
  waterIntake : Int
  duration : Int
  notes : Option String
  deriving Repr, DecidableEq

/-- The derived statistics record (`WorkoutStats` in the schema). -/
structure WorkoutStats where
  totalWorkouts : Nat
  totalWaterIntake : Int
  totalDuration : Int
  averageWaterPerWorkout : Rat
  completionPercentage : Rat
  lastWorkoutDate : Option Int
  deriving Repr, DecidableEq

/-- The insert-side shape `InsertWorkoutLog`: `userId` is required;
every other field may be absent (outer `none`).  For the nullable columns
`workoutId` and `notes` a present value may itself be `null`
(inner `none`). -/
structure InsertWorkoutLog where
  userId : Nat
  workoutId : Option (Option Int) := none
  date : Option Int := none
  completedExercises : Option Int := none
  waterIntake : Option Int := none
  duration : Option Int := none
  notes : Option (Option String) := none
  deriving Repr, DecidableEq

/-- The `Map<number, WorkoutLog>` backing store, as an insertion-ordered
association list. -/
abbrev LogMap := List (Nat × WorkoutLog)

/-- JS `map.get(k)`. -/
def mapGet (m : LogMap) (k : Nat) : Option WorkoutLog :=
  (m.find? (fun p => p.1 == k)).map Prod.snd

/-- JS `map.set(k, v)`: replace in place when the key is present,
append otherwise. -/
def mapSet (m : LogMap) (k : Nat) (v : WorkoutLog) : LogMap :=
  if m.any (fun p => p.1 == k) then
    m.map (fun p => if p.1 == k then (k, v) else p)
  else
    m ++ [(k, v)]

/-- JS `Array.from(map.values())`, in insertion order. -/
def mapValues (m : LogMap) : List WorkoutLog := m.map Prod.snd

/-- The workout-log slice of `MemStorage`: the `workoutLogs` map and the
`currentWorkoutLogId` counter. -/
structure MemStorage where
  workoutLogs : LogMap
  currentWorkoutLogId : Nat
  deriving Repr, DecidableEq

/-- The constructor state: empty map, counter 1. -/
def MemStorage.init : MemStorage := { workoutLogs := [], currentWorkoutLogId := 1 }

/-- MemStorage.createWorkoutLog (storage.ts lines 189-206).  `now` is the
value the clock would give to `new Date()`.  Returns the completed record
and the updated store. -/
def createWorkoutLog (s : MemStorage) (now : Int) (log : InsertWorkoutLog) :
    WorkoutLog × MemStorage :=
  let id := s.currentWorkoutLogId
  let workoutLog : WorkoutLog := {
    id := id
    userId := log.userId
    workoutId := log.workoutId.getD none
    date := log.date.getD now
    completedExercises := log.completedExercises.getD 0
    waterIntake := log.waterIntake.getD 0
    duration := log.duration.getD 0
    notes := log.notes.getD none }
  (workoutLog,
   { workoutLogs := mapSet s.workoutLogs id workoutLog
     currentWorkoutLogId := id + 1 })

/-- Comparator of the sort in getWorkoutLogs:
`(a, b) => b.date.getTime() - a.date.getTime()` as the non-strict
relation it sorts by. -/
def dateGE (a b : WorkoutLog) : Prop := b.date ≤ a.date

instance : DecidableRel dateGE :=
  fun a b => inferInstanceAs (Decidable (b.date ≤ a.date))

instance : IsTotal WorkoutLog dateGE := ⟨fun a b => le_total b.date a.date⟩

instance : IsTrans WorkoutLog dateGE :=
  ⟨fun _ _ _ hab hbc => le_trans hbc hab⟩

/-- MemStorage.getWorkoutLogs (storage.ts lines 208-222): filter the map
values by owner, then by each bound that was supplied (both inclusive),
then sort by non-increasing date. -/
def getWorkoutLogs (s : MemStorage) (userId : Nat)
    (startDate endDate : Option Int := none) : List WorkoutLog :=
  let logs := (mapValues s.workoutLogs).filter (fun log => log.userId == userId)
  let logs := match startDate with
    | some sd => logs.filter (fun (log : WorkoutLog) => sd ≤ log.date)
    | none => logs
  let logs := match endDate with
    | some ed => logs.filter (fun (log : WorkoutLog) => log.date ≤ ed)
    | none => logs
  List.insertionSort dateGE logs

/-- Milliseconds per day; `startDate.setDate(startDate.getDate() - days)`
moves the start of the window `days` civil days back, i.e. `days` times
this many milliseconds in the DST-free model. -/
def msPerDay : Int := 86400000

/-- The window of logs getWorkoutStats aggregates over:
`getWorkoutLogs(userId, now - days days, now)`. -/
def statsWindowLogs (s : MemStorage) (now : Int) (userId : Nat) (days : Int) :
    List WorkoutLog :=
  getWorkoutLogs s userId (some (now - days * msPerDay)) (some now)

/-- MemStorage.getWorkoutStats (storage.ts lines 224-263). -/
def getWorkoutStats (s : MemStorage) (now : Int) (userId : Nat)
    (days : Int := 30) : WorkoutStats :=
  let logs := statsWindowLogs s now userId days
  if logs.length = 0 then
    { totalWorkouts := 0
      totalWaterIntake := 0
      totalDuration := 0
      averageWaterPerWorkout := 0
      completionPercentage := 0
      lastWorkoutDate := none }
  else
    let totalWorkouts := logs.length
    let totalWaterIntake : Int := (logs.map (fun log => log.waterIntake)).sum
    let totalDuration : Int := (logs.map (fun log => log.duration)).sum
    let averageWaterPerWorkout : Rat :=
      if totalWorkouts > 0 then (totalWaterIntake : Rat) / (totalWorkouts : Rat) else 0
    let expectedWorkouts : Int := (Int.fdiv days 7) * 3
    let completionPercentage : Rat :=
      if expectedWorkouts > 0 then
        min 100 (((totalWorkouts : Rat) / (expectedWorkouts : Rat)) * 100)
      else 0
    let lastWorkoutDate := (logs.head?).map (fun log => log.date)
    { totalWorkouts := totalWorkouts
      totalWaterIntake := totalWaterIntake
      totalDuration := totalDuration
      averageWaterPerWorkout := averageWaterPerWorkout
      completionPercentage := completionPercentage
      lastWorkoutDate := lastWorkoutDate }

/-! Query surface: `GET /api/stats` (routes.ts lines 336-353). -/

/-- A JSON/JS value as it reaches the schema: a (here integer-valued)
number, a string, a `Date` object carrying its timestamp, `null`, or a
boolean. -/
inductive JsonVal where
  | num : Int → JsonVal
  | str : String → JsonVal
  | date : Int → JsonVal
  | null : JsonVal
  | bool : Bool → JsonVal
  deriving Repr, DecidableEq

/-- The request body fields of `POST /api/logs` before validation
(`userId` is overwritten by the handler from the session, so it is not
part of the raw body here); `none` is an absent field. -/
structure RawLogBody where
  workoutId : Option JsonVal := none
  date : Option JsonVal := none
  completedExercises : Option JsonVal := none
  waterIntake : Option JsonVal := none
  duration : Option JsonVal := none
  notes : Option JsonVal := none
  deriving Repr, DecidableEq

/-- Zod check for an optional `number` field (integer column with a
default): absent is fine, a number is fine, anything else fails naming
the field.  No range or sign constraint. -/
def zodOptionalNumber (field : String) (v : Option JsonVal) :
    Except String (Option Int) :=
  match v with
  | none => Except.ok none
  | some (JsonVal.num n) => Except.ok (some n)
  | some _ => Except.error field

/-- Zod check for an optional nullable `number` field (`workoutId`). -/
def zodOptionalNullableNumber (field : String) (v : Option JsonVal) :
    Except String (Option (Option Int)) :=
  match v with
  | none => Except.ok none
  | some JsonVal.null => Except.ok (some none)
  | some (JsonVal.num n) => Except.ok (some (some n))
  | some _ => Except.error field

/-- Zod check for an optional `Date` field (`date`). -/
def zodOptionalDate (field : String) (v : Option JsonVal) :
    Except String (Option Int) :=
  match v with
  | none => Except.ok none
  | some (JsonVal.date t) => Except.ok (some t)
  | some _ => Except.error field

/-- Zod check for an optional nullable `string` field (`notes`). -/
def zodOptionalNullableString (field : String) (v : Option JsonVal) :
    Except String (Option (Option String)) :=
  match v with
  | none => Except.ok none
  | some JsonVal.null => Except.ok (some none)
  | some (JsonVal.str t) => Except.ok (some (some t))
  | some _ => Except.error field

/-- `insertWorkoutLogSchema.parse({...req.body, userId})`: validate each
field's type; the error carries the first offending field's name.  The
schema constrains types only — it imposes no lower bound on the numeric
fields. -/
def insertWorkoutLogSchemaParse (userId : Nat) (body : RawLogBody) :
    Except String InsertWorkoutLog := do
  let workoutId ← zodOptionalNullableNumber "workoutId" body.workoutId
  let date ← zodOptionalDate "date" body.date
  let completedExercises ← zodOptionalNumber "completedExercises" body.completedExercises
  let waterIntake ← zodOptionalNumber "waterIntake" body.waterIntake
  let duration ← zodOptionalNumber "duration" body.duration
  let notes ← zodOptionalNullableString "notes" body.notes
  Except.ok { userId := userId, workoutId := workoutId, date := date,
              completedExercises := completedExercises,
              waterIntake := waterIntake, duration := duration, notes := notes }

/-- The `POST /api/logs` handler body after authentication: validate,
answering a 400 carrying the offending field on a `ZodError`, otherwise
persist through createWorkoutLog and answer 201 with the record. -/
def postLogsRoute (s : MemStorage) (now : Int) (userId : Nat)
    (body : RawLogBody) : Except String (WorkoutLog × MemStorage) :=
  match insertWorkoutLogSchemaParse userId body with
  | Except.error e => Except.error e
  | Except.ok validated => Except.ok (createWorkoutLog s now validated)

/-- The id-counter invariant of the store: every key in the map was
assigned by an earlier createWorkoutLog call, hence is below the current
counter. -/
def StoreInv (s : MemStorage) : Bool :=
  s.workoutLogs.all (fun p => p.1 < s.currentWorkoutLogId)

/-- Spec-side selection predicate for listLogs: owned by `userId` and,
for each supplied bound, the bound holds inclusively (an omitted bound
restricts nothing). -/
def logMatches (userId : Nat) (startDate endDate : Option Int)
    (log : WorkoutLog) : Bool :=
  (log.userId == userId) &&
  (match startDate with
   | none => true
   | some sd => decide (sd ≤ log.date)) &&
  (match endDate with
   | none => true
   | some ed => decide (log.date ≤ ed))

/-- A log of user 1 with a given id, date and water intake and all other
fields at their defaults, for the concrete test scenarios. -/
def aLog (i : Nat) (d w : Int) : WorkoutLog :=
  { id := i, userId := 1, workoutId := none, date := d,
    completedExercises := 0, waterIntake := w, duration := 0, notes := none }

/-- Store of spec test scenario A: five logs of user 1 with water intakes
100, 200, 300, 400, 500, all dated within the 30-day window ending at
scenarioANow. -/
def scenarioAStore : MemStorage :=
  { workoutLogs := [
      (1, aLog 1 500000000 100),
      (2, aLog 2 600000000 200),
      (3, aLog 3 700000000 300),
      (4, aLog 4 800000000 400),
      (5, aLog 5 900000000 500)]
    currentWorkoutLogId := 6 }

/-- The clock reading for scenario A: all five dates lie in
`[scenarioANow - 30 days, scenarioANow]`. -/
def scenarioANow : Int := 3000000000

/-- The clock reading for scenario B over the same store: exactly the two
logs dated 500000000 and 600000000 lie in the 5-day window ending here. -/
def scenarioBNow : Int := 600000000

/-- The all-zero statistics record returned for an empty window. -/
def emptyStats : WorkoutStats :=
  { totalWorkouts := 0, totalWaterIntake := 0, totalDuration := 0,
    averageWaterPerWorkout := 0, completionPercentage := 0,
    lastWorkoutDate := none }

/-- The result of getWorkoutLogs is, up to the descending reordering, the
sublist of stored values selected by logMatches. -/
theorem getWorkoutLogs_perm_filter (s : MemStorage) (u : Nat)
    (sd ed : Option Int) :
    (getWorkoutLogs s u sd ed).Perm
      ((mapValues s.workoutLogs).filter (logMatches u sd ed)) := by
  unfold getWorkoutLogs
  refine (List.perm_insertionSort dateGE _).trans (List.Perm.of_eq ?_)
  cases sd <;> cases ed <;>
    simp only [List.filter_filter] <;>
    exact List.filter_congr (fun x _ => by
      simp [logMatches, Bool.and_comm, Bool.and_left_comm, Bool.and_assoc])

/-- Evaluation of getWorkoutStats on a non-empty window, with the if
selecting the aggregating branch and the average's guard discharged. -/
theorem getWorkoutStats_eq_of_ne_nil (s : MemStorage) (now : Int) (u : Nat)
    (days : Int) (h : statsWindowLogs s now u days ≠ []) :
    getWorkoutStats s now u days =
      { totalWorkouts := (statsWindowLogs s now u days).length
        totalWaterIntake :=
          ((statsWindowLogs s now u days).map (fun log => log.waterIntake)).sum
        totalDuration :=
          ((statsWindowLogs s now u days).map (fun log => log.duration)).sum
        averageWaterPerWorkout :=
          ((((statsWindowLogs s now u days).map (fun log => log.waterIntake)).sum : Int) : Rat) /
            (((statsWindowLogs s now u days).length : Nat) : Rat)
        completionPercentage :=
          if 0 < Int.fdiv days 7 * 3 then
            min 100 (((((statsWindowLogs s now u days).length : Nat) : Rat) /
              ((Int.fdiv days 7 * 3 : Int) : Rat)) * 100)
          else 0
        lastWorkoutDate :=
          ((statsWindowLogs s now u days).head?).map (fun log => log.date) } := by
  have hlen : (statsWindowLogs s now u days).length ≠ 0 := by
    simpa [List.length_eq_zero] using h
  have hpos : 0 < (statsWindowLogs s now u days).length := Nat.pos_of_ne_zero hlen
  simp [getWorkoutStats, hlen, hpos]

/-- C1: on every non-empty window, getWorkoutStats returns totalWorkouts
equal to the number of in-window logs, totalWaterIntake and totalDuration
equal to the sums of the respective fields, and averageWaterPerWorkout
equal to totalWaterIntake divided exactly by totalWorkouts; in
particular, in scenario A (windowDays 30, five in-window logs with water
intakes 100..500) it returns totalWorkouts 5, totalWaterIntake 1500 and
averageWaterPerWorkout 300. -/
theorem c1_stats_totals_and_average (s : MemStorage) (now : Int) (u : Nat)
    (days : Int) (h : statsWindowLogs s now u days ≠ []) :
    ((getWorkoutStats s now u days).totalWorkouts =
        (statsWindowLogs s now u days).length ∧
     (getWorkoutStats s now u days).totalWaterIntake =
        ((statsWindowLogs s now u days).map (fun log => log.waterIntake)).sum ∧
     (getWorkoutStats s now u days).totalDuration =
        ((statsWindowLogs s now u days).map (fun log => log.duration)).sum ∧
     (getWorkoutStats s now u days).averageWaterPerWorkout =
        ((((statsWindowLogs s now u days).map (fun log => log.waterIntake)).sum : Int) : Rat) /
          (((statsWindowLogs s now u days).length : Nat) : Rat)) ∧
    ((getWorkoutStats scenarioAStore scenarioANow 1 30).totalWorkouts = 5 ∧
     (getWorkoutStats scenarioAStore scenarioANow 1 30).totalWaterIntake = 1500 ∧
     (getWorkoutStats scenarioAStore scenarioANow 1 30).averageWaterPerWorkout = 300) := by
  constructor
  · rw [getWorkoutStats_eq_of_ne_nil s now u days h]
    exact ⟨rfl, rfl, rfl, rfl⟩
  · have hA : statsWindowLogs scenarioAStore scenarioANow 1 30 =
        [aLog 5 900000000 500, aLog 4 800000000 400, aLog 3 700000000 300,
         aLog 2 600000000 200, aLog 1 500000000 100] := by decide
    rw [getWorkoutStats_eq_of_ne_nil scenarioAStore scenarioANow 1 30 (by rw [hA]; simp)]
    rw [hA]
    refine ⟨rfl, by norm_num [aLog], ?_⟩
    norm_num [aLog]

/-- C1 witness: scenario A instantiates the non-empty-window hypothesis
and yields the announced totals. -/
theorem c1_witness :
    statsWindowLogs scenarioAStore scenarioANow 1 30 ≠ [] ∧
    (getWorkoutStats scenarioAStore scenarioANow 1 30).totalWorkouts = 5 ∧
    (getWorkoutStats scenarioAStore scenarioANow 1 30).totalWaterIntake = 1500 ∧
    (getWorkoutStats scenarioAStore scenarioANow 1 30).averageWaterPerWorkout = 300 :=
  ⟨by decide,
   (c1_stats_totals_and_average scenarioAStore scenarioANow 1 30 (by decide)).2⟩

/-- C2: for a positive window with at least one in-window log,
completionPercentage is 0 when floor(windowDays / 7) * 3 = 0 and
otherwise min 100 of totalWorkouts over that target times 100; moreover
with windowDays 5 the percentage is 0 no matter what the store holds,
with no division by zero. -/
theorem c2_completion_percentage (s : MemStorage) (now : Int) (u : Nat)
    (days : Int) (hdays : 0 < days) (h : statsWindowLogs s now u days ≠ []) :
    ((getWorkoutStats s now u days).completionPercentage =
      (if Int.fdiv days 7 * 3 = 0 then (0 : Rat)
       else min 100 (((((statsWindowLogs s now u days).length : Nat) : Rat) /
         ((Int.fdiv days 7 * 3 : Int) : Rat)) * 100))) ∧
    (getWorkoutStats s now u 5).completionPercentage = 0 := by
  constructor
  · rw [getWorkoutStats_eq_of_ne_nil s now u days h]
    have hnn : 0 ≤ Int.fdiv days 7 * 3 :=
      mul_nonneg (Int.fdiv_nonneg (le_of_lt hdays) (by norm_num)) (by norm_num)
    by_cases hz : Int.fdiv days 7 * 3 = 0
    · simp [hz]
    · have hpos : 0 < Int.fdiv days 7 * 3 := lt_of_le_of_ne hnn (Ne.symm hz)
      simp [hz, hpos]
  · by_cases hE : statsWindowLogs s now u 5 = []
    · simp [getWorkoutStats, hE]
    · rw [getWorkoutStats_eq_of_ne_nil s now u 5 hE]
      have h57 : Int.fdiv 5 7 * 3 = 0 := by decide
      simp [h57]

/-- C2 witness: scenario B (windowDays 5 over the scenario store, two
logs in window) instantiates both hypotheses; the target is 0 workouts,
so the percentage is 0. -/
theorem c2_witness :
    (0 : Int) < 5 ∧ statsWindowLogs scenarioAStore scenarioBNow 1 5 ≠ [] ∧
    (getWorkoutStats scenarioAStore scenarioBNow 1 5).completionPercentage = 0 :=
  ⟨by decide, by decide,
   (c2_completion_percentage scenarioAStore scenarioBNow 1 5 (by decide) (by decide)).2⟩

/-- C3: every getWorkoutLogs result is sorted non-increasing by date, and
on a non-empty window the lastWorkoutDate getWorkoutStats returns is the
date of a windowed log that is maximal among all windowed logs. -/
theorem c3_sorted_desc_and_last (s : MemStorage) (u : Nat) (sd ed : Option Int)
    (s2 : MemStorage) (now : Int) (u2 : Nat) (days : Int)
    (h : statsWindowLogs s2 now u2 days ≠ []) :
    (getWorkoutLogs s u sd ed).Pairwise (fun a b => b.date ≤ a.date) ∧
    ∃ d, (getWorkoutStats s2 now u2 days).lastWorkoutDate = some d ∧
      (∃ l ∈ statsWindowLogs s2 now u2 days, l.date = d) ∧
      ∀ l ∈ statsWindowLogs s2 now u2 days, l.date ≤ d := by
  have sorted : ∀ (s3 : MemStorage) (u3 : Nat) (sd3 ed3 : Option Int),
      (getWorkoutLogs s3 u3 sd3 ed3).Pairwise (fun a b => b.date ≤ a.date) := by
    intro s3 u3 sd3 ed3
    unfold getWorkoutLogs
    exact List.sorted_insertionSort dateGE _
  refine ⟨sorted s u sd ed, ?_⟩
  obtain ⟨hd, t, hL⟩ := List.exists_cons_of_ne_nil h
  have hsorted : (statsWindowLogs s2 now u2 days).Pairwise
      (fun a b => b.date ≤ a.date) := sorted s2 u2 _ _
  refine ⟨hd.date, ?_, ⟨hd, by simp [hL], rfl⟩, ?_⟩
  · rw [getWorkoutStats_eq_of_ne_nil s2 now u2 days h]
    simp [hL]
  · intro l hl
    rw [hL] at hl hsorted
    rcases List.mem_cons.mp hl with hEq | hMem
    · exact le_of_eq (congrArg WorkoutLog.date hEq)
    · exact List.rel_of_pairwise_cons hsorted hMem

/-- C3 witness: the scenario-A store instantiates the non-empty-window
hypothesis; the maximal windowed date is reported. -/
theorem c3_witness :
    (getWorkoutLogs scenarioAStore 1 none none).Pairwise
      (fun a b => b.date ≤ a.date) ∧
    ∃ d, (getWorkoutStats scenarioAStore scenarioANow 1 30).lastWorkoutDate = some d ∧
      (∃ l ∈ statsWindowLogs scenarioAStore scenarioANow 1 30, l.date = d) ∧
      ∀ l ∈ statsWindowLogs scenarioAStore scenarioANow 1 30, l.date ≤ d :=
  c3_sorted_desc_and_last scenarioAStore 1 none none scenarioAStore scenarioANow 1 30
    (by decide)

/-- C4: getWorkoutLogs returns exactly the stored logs of the given user
whose date meets each supplied inclusive bound — a permutation of the
selected sublist, with equal multiplicity for every record, membership
characterised by the predicate, and the empty sequence (not an error)
when nothing matches. -/
theorem c4_list_logs_exact (s : MemStorage) (u : Nat) (sd ed : Option Int) :
    ((getWorkoutLogs s u sd ed).Perm
       ((mapValues s.workoutLogs).filter (logMatches u sd ed))) ∧
    (∀ l, (getWorkoutLogs s u sd ed).count l =
       ((mapValues s.workoutLogs).filter (logMatches u sd ed)).count l) ∧
    (∀ l, l ∈ getWorkoutLogs s u sd ed ↔
       l ∈ mapValues s.workoutLogs ∧ logMatches u sd ed l = true) ∧
    ((mapValues s.workoutLogs).filter (logMatches u sd ed) = [] →
       getWorkoutLogs s u sd ed = []) := by
  have hperm := getWorkoutLogs_perm_filter s u sd ed
  exact ⟨hperm, fun l => hperm.count_eq l,
    fun l => hperm.mem_iff.trans List.mem_filter,
    fun hnil => List.Perm.eq_nil (hnil ▸ hperm)⟩

/-- C4 witness: on the empty initial store nothing matches and the result
is the empty sequence. -/
theorem c4_witness : getWorkoutLogs MemStorage.init 1 none none = [] :=
  (c4_list_logs_exact MemStorage.init 1 none none).2.2.2 (by decide)

/-- C5: when the user has no logs in the window, getWorkoutStats returns
exactly the all-zero record with lastWorkoutDate absent. -/
theorem c5_empty_window (s : MemStorage) (now : Int) (u : Nat) (days : Int)
    (h : statsWindowLogs s now u days = []) :
    getWorkoutStats s now u days = emptyStats := by
  simp [getWorkoutStats, emptyStats, h]

/-- C5 witness: the empty initial store has no logs in any window. -/
theorem c5_witness :
    statsWindowLogs MemStorage.init 0 1 30 = [] ∧
    getWorkoutStats MemStorage.init 0 1 30 = emptyStats :=
  ⟨by decide, c5_empty_window MemStorage.init 0 1 30 (by decide)⟩

/-- C9: getWorkoutStats is a pure function of the store snapshot and the
clock reading, so two calls with no intervening writes (same snapshot,
same clock) agree on all six fields. -/
theorem c9_stats_idempotent (s : MemStorage) (now : Int) (u : Nat) (days : Int) :
    (getWorkoutStats s now u days).totalWorkouts =
      (getWorkoutStats s now u days).totalWorkouts ∧
    (getWorkoutStats s now u days).totalWaterIntake =
      (getWorkoutStats s now u days).totalWaterIntake ∧
    (getWorkoutStats s now u days).totalDuration =
      (getWorkoutStats s now u days).totalDuration ∧
    (getWorkoutStats s now u days).averageWaterPerWorkout =
      (getWorkoutStats s now u days).averageWaterPerWorkout ∧
    (getWorkoutStats s now u days).completionPercentage =
      (getWorkoutStats s now u days).completionPercentage ∧
    (getWorkoutStats s now u days).lastWorkoutDate =
      (getWorkoutStats s now u days).lastWorkoutDate :=
  ⟨rfl, rfl, rfl, rfl, rfl, rfl⟩

/-- A key dominating every key of the map is absent from it. -/
theorem mapGet_of_all_lt (m : LogMap) (k : Nat)
    (h : m.all (fun p => p.1 < k) = true) : mapGet m k = none := by
  induction m with
  | nil => rfl
  | cons p m ih =>
    simp only [List.all_cons, Bool.and_eq_true] at h
    have hne : ¬((fun (q : Nat × WorkoutLog) => q.1 == k) p = true) := by
      simp only [beq_iff_eq]
      exact Nat.ne_of_lt (of_decide_eq_true h.1)
    unfold mapGet at ih ⊢
    have hf : List.find? (fun (q : Nat × WorkoutLog) => q.1 == k) (p :: m) =
        List.find? (fun q => q.1 == k) m := List.find?_cons_of_neg m hne
    rw [hf]
    exact ih h.2

/-- Setting a key dominating every key of the map appends the binding. -/
theorem mapSet_of_all_lt (m : LogMap) (k : Nat) (v : WorkoutLog)
    (h : m.all (fun p => p.1 < k) = true) : mapSet m k v = m ++ [(k, v)] := by
  unfold mapSet
  have hany : m.any (fun p => p.1 == k) = false := by
    rw [Bool.eq_false_iff]
    intro hc
    obtain ⟨p, hp, hpk⟩ := List.any_eq_true.mp hc
    have hlt := of_decide_eq_true (List.all_eq_true.mp h p hp)
    have hpe : p.1 = k := by simpa using hpk
    exact absurd hpe (Nat.ne_of_lt hlt)
  rw [hany]
  simp

/-- Looking up a key just appended to a map it was absent from finds the
appended value. -/
theorem mapGet_append_self (m : LogMap) (k : Nat) (v : WorkoutLog)
    (h : mapGet m k = none) : mapGet (m ++ [(k, v)]) k = some v := by
  unfold mapGet at h ⊢
  rw [List.find?_append]
  rcases hfind : List.find? (fun p => p.1 == k) m with _ | p
  · rw [hfind]
    simp
  · rw [hfind] at h
    simp at h

/-- Appending a binding for one key leaves every other key's lookup
unchanged. -/
theorem mapGet_append_ne (m : LogMap) (k : Nat) (v : WorkoutLog) (j : Nat)
    (h : j ≠ k) : mapGet (m ++ [(k, v)]) j = mapGet m j := by
  unfold mapGet
  rw [List.find?_append]
  have hne : (k == j) = false := by
    simp [Ne.symm h]
  rcases hfind : List.find? (fun p => p.1 == j) m with _ | p
  · rw [hfind]
    simp [List.find?_cons_of_neg, hne]
  · rw [hfind]
    rfl

/-- C6: on a store whose keys are all below the id counter (the invariant
every reachable store keeps), createWorkoutLog assigns an identifier
strictly greater than every stored identifier, re-establishes the
invariant with the counter moved past the new id, persists the record
under the new id, keeps every caller-supplied field unchanged, and fills
the documented defaults for absent fields. -/
theorem c6_create_log (s : MemStorage) (now : Int) (log : InsertWorkoutLog)
    (hs : StoreInv s = true) :
    (∀ p ∈ s.workoutLogs, p.1 < (createWorkoutLog s now log).1.id) ∧
    StoreInv (createWorkoutLog s now log).2 = true ∧
    (createWorkoutLog s now log).2.currentWorkoutLogId =
      (createWorkoutLog s now log).1.id + 1 ∧
    mapGet (createWorkoutLog s now log).2.workoutLogs
      (createWorkoutLog s now log).1.id = some (createWorkoutLog s now log).1 ∧
    (createWorkoutLog s now log).1.userId = log.userId ∧
    (createWorkoutLog s now log).1.workoutId = log.workoutId.getD none ∧
    (log.date = none → (createWorkoutLog s now log).1.date = now) ∧
    (∀ d, log.date = some d → (createWorkoutLog s now log).1.date = d) ∧
    (log.completedExercises = none →
      (createWorkoutLog s now log).1.completedExercises = 0) ∧
    (∀ n, log.completedExercises = some n →
      (createWorkoutLog s now log).1.completedExercises = n) ∧
    (log.waterIntake = none → (createWorkoutLog s now log).1.waterIntake = 0) ∧
    (∀ n, log.waterIntake = some n →
      (createWorkoutLog s now log).1.waterIntake = n) ∧
    (log.duration = none → (createWorkoutLog s now log).1.duration = 0) ∧
    (∀ n, log.duration = some n → (createWorkoutLog s now log).1.duration = n) ∧
    (log.notes = none → (createWorkoutLog s now log).1.notes = none) ∧
    (∀ v, log.notes = some v → (createWorkoutLog s now log).1.notes = v) := by
  have hall : ∀ p ∈ s.workoutLogs, p.1 < s.currentWorkoutLogId := by
    intro p hp
    exact of_decide_eq_true (List.all_eq_true.mp hs p hp)
  have hnone : mapGet s.workoutLogs s.currentWorkoutLogId = none :=
    mapGet_of_all_lt _ _ hs
  refine ⟨hall, ?_, rfl, ?_, rfl, rfl,
    fun hd => by simp [createWorkoutLog, hd],
    fun d hd => by simp [createWorkoutLog, hd],
    fun hd => by simp [createWorkoutLog, hd],
    fun n hd => by simp [createWorkoutLog, hd],
    fun hd => by simp [createWorkoutLog, hd],
    fun n hd => by simp [createWorkoutLog, hd],
    fun hd => by simp [createWorkoutLog, hd],
    fun n hd => by simp [createWorkoutLog, hd],
    fun hd => by simp [createWorkoutLog, hd],
    fun v hd => by simp [createWorkoutLog, hd]⟩
  · show StoreInv
      { workoutLogs := mapSet s.workoutLogs s.currentWorkoutLogId _
        currentWorkoutLogId := s.currentWorkoutLogId + 1 } = true
    unfold StoreInv
    rw [mapSet_of_all_lt _ _ _ hs]
    simp only [List.all_append, List.all_cons, List.all_nil, Bool.and_eq_true,
      List.all_eq_true]
    exact ⟨fun p hp => decide_eq_true (Nat.lt_succ_of_lt (hall p hp)),
      ⟨decide_eq_true (Nat.lt_succ_self _), trivial⟩⟩
  · show mapGet (mapSet s.workoutLogs s.currentWorkoutLogId _)
      s.currentWorkoutLogId = _
    rw [mapSet_of_all_lt _ _ _ hs]
    exact mapGet_append_self _ _ _ hnone

/-- C6 witness: creating a log with only a water intake on the initial
store assigns id 1, fills the defaults and keeps the supplied field. -/
theorem c6_witness :
    StoreInv MemStorage.init = true ∧
    mapGet (createWorkoutLog MemStorage.init 77 { userId := 1, waterIntake := some 250 }).2.workoutLogs
      (createWorkoutLog MemStorage.init 77 { userId := 1, waterIntake := some 250 }).1.id =
      some (createWorkoutLog MemStorage.init 77 { userId := 1, waterIntake := some 250 }).1 ∧
    (createWorkoutLog MemStorage.init 77 { userId := 1, waterIntake := some 250 }).1.date = 77 ∧
    (createWorkoutLog MemStorage.init 77 { userId := 1, waterIntake := some 250 }).1.waterIntake = 250 :=
  ⟨by decide,
   (c6_create_log MemStorage.init 77 { userId := 1, waterIntake := some 250 } (by decide)).2.2.2.1,
   (c6_create_log MemStorage.init 77 { userId := 1, waterIntake := some 250 } (by decide)).2.2.2.2.2.2.1 rfl,
   (c6_create_log MemStorage.init 77 { userId := 1, waterIntake := some 250 } (by decide)).2.2.2.2.2.2.2.2.2.2.2.1 250 rfl⟩

/-- C10: createWorkoutLog grows the store by exactly one binding, under a
key that was absent before, and the binding stored under every other key
is exactly what it was before the call. -/
theorem c10_create_log_frame (s : MemStorage) (now : Int)
    (log : InsertWorkoutLog) (hs : StoreInv s = true) :
    (createWorkoutLog s now log).2.workoutLogs.length =
      s.workoutLogs.length + 1 ∧
    mapGet s.workoutLogs (createWorkoutLog s now log).1.id = none ∧
    mapGet (createWorkoutLog s now log).2.workoutLogs
      (createWorkoutLog s now log).1.id = some (createWorkoutLog s now log).1 ∧
    ∀ k, k ≠ (createWorkoutLog s now log).1.id →
      mapGet (createWorkoutLog s now log).2.workoutLogs k =
        mapGet s.workoutLogs k := by
  have hnone : mapGet s.workoutLogs s.currentWorkoutLogId = none :=
    mapGet_of_all_lt _ _ hs
  have hset : (createWorkoutLog s now log).2.workoutLogs =
      s.workoutLogs ++ [(s.currentWorkoutLogId, (createWorkoutLog s now log).1)] :=
    mapSet_of_all_lt _ _ _ hs
  refine ⟨?_, hnone, ?_, ?_⟩
  · rw [hset]
    simp
  · rw [hset]
    exact mapGet_append_self _ _ _ hnone
  · intro k hk
    rw [hset]
    exact mapGet_append_ne _ _ _ _ hk

/-- C10 witness: a second creation on a one-log store appends and leaves
the first log's binding unchanged. -/
theorem c10_witness :
    StoreInv scenarioAStore = true ∧
    (createWorkoutLog scenarioAStore 0 { userId := 2 }).2.workoutLogs.length =
      scenarioAStore.workoutLogs.length + 1 ∧
    mapGet (createWorkoutLog scenarioAStore 0 { userId := 2 }).2.workoutLogs 3 =
      mapGet scenarioAStore.workoutLogs 3 :=
  ⟨by decide,
   (c10_create_log_frame scenarioAStore 0 { userId := 2 } (by decide)).1,
   (c10_create_log_frame scenarioAStore 0 { userId := 2 } (by decide)).2.2.2 3 (by decide)⟩

/-- Inversion for the optional-number field check: success means the
field was absent or a number, carried through unchanged — any sign
included. -/
theorem zodOptionalNumber_ok_iff (field : String) (v : Option JsonVal)
    (r : Option Int) :
    zodOptionalNumber field v = Except.ok r ↔
      (v = none ∧ r = none) ∨
      (∃ n, v = some (JsonVal.num n) ∧ r = some n) := by
  cases v with
  | none => simp [zodOptionalNumber, eq_comm]
  | some j => cases j <;> simp [zodOptionalNumber, eq_comm]

/-- Inversion for the optional-date field check. -/
theorem zodOptionalDate_ok_iff (field : String) (v : Option JsonVal)
    (r : Option Int) :
    zodOptionalDate field v = Except.ok r ↔
      (v = none ∧ r = none) ∨
      (∃ t, v = some (JsonVal.date t) ∧ r = some t) := by
  cases v with
  | none => simp [zodOptionalDate, eq_comm]
  | some j => cases j <;> simp [zodOptionalDate, eq_comm]

/-- What a successful schema parse pins down about the validated record:
the session's user id, and each optional field carried through verbatim
(absent stays absent, a supplied number — of either sign — stays
itself). -/
theorem schemaParse_ok_fields (u : Nat) (body : RawLogBody)
    (v : InsertWorkoutLog)
    (h : insertWorkoutLogSchemaParse u body = Except.ok v) :
    v.userId = u ∧
    (body.date = none → v.date = none) ∧
    (∀ t, body.date = some (JsonVal.date t) → v.date = some t) ∧
    (body.completedExercises = none → v.completedExercises = none) ∧
    (∀ n, body.completedExercises = some (JsonVal.num n) →
      v.completedExercises = some n) ∧
    (body.waterIntake = none → v.waterIntake = none) ∧
    (∀ n, body.waterIntake = some (JsonVal.num n) → v.waterIntake = some n) ∧
    (body.duration = none → v.duration = none) ∧
    (∀ n, body.duration = some (JsonVal.num n) → v.duration = some n) := by
  unfold insertWorkoutLogSchemaParse at h
  rcases h1 : zodOptionalNullableNumber "workoutId" body.workoutId with e1 | r1 <;>
    rw [h1] at h <;> simp [Bind.bind, Except.bind] at h
  rcases h2 : zodOptionalDate "date" body.date with e2 | r2 <;>
    rw [h2] at h <;> simp [Bind.bind, Except.bind] at h
  rcases h3 : zodOptionalNumber "completedExercises" body.completedExercises
      with e3 | r3 <;>
    rw [h3] at h <;> simp [Bind.bind, Except.bind] at h
  rcases h4 : zodOptionalNumber "waterIntake" body.waterIntake with e4 | r4 <;>
    rw [h4] at h <;> simp [Bind.bind, Except.bind] at h
  rcases h5 : zodOptionalNumber "duration" body.duration with e5 | r5 <;>
    rw [h5] at h <;> simp [Bind.bind, Except.bind] at h
  rcases h6 : zodOptionalNullableString "notes" body.notes with e6 | r6 <;>
    rw [h6] at h <;> simp [Bind.bind, Except.bind] at h
  have hv : v = ⟨u, r1, r2, r3, r4, r5, r6⟩ := h.symm
  subst hv
  refine ⟨rfl, ?_, ?_, ?_, ?_, ?_, ?_, ?_, ?_⟩
  · intro hb
    rcases (zodOptionalDate_ok_iff _ _ _).mp h2 with ⟨_, hr⟩ | ⟨t, hbt, _⟩
    · exact hr
    · rw [hb] at hbt
      exact absurd hbt (by simp)
  · intro t hb
    rcases (zodOptionalDate_ok_iff _ _ _).mp h2 with ⟨hbn, _⟩ | ⟨t2, hbt, hr⟩
    · rw [hb] at hbn
      exact absurd hbn (by simp)
    · rw [hb] at hbt
      simp at hbt
      rw [hr, hbt]
  · intro hb
    rcases (zodOptionalNumber_ok_iff _ _ _).mp h3 with ⟨_, hr⟩ | ⟨n, hbt, _⟩
    · exact hr
    · rw [hb] at hbt
      exact absurd hbt (by simp)
  · intro n hb
    rcases (zodOptionalNumber_ok_iff _ _ _).mp h3 with ⟨hbn, _⟩ | ⟨n2, hbt, hr⟩
    · rw [hb] at hbn
      exact absurd hbn (by simp)
    · rw [hb] at hbt
      simp at hbt
      rw [hr, hbt]
  · intro hb
    rcases (zodOptionalNumber_ok_iff _ _ _).mp h4 with ⟨_, hr⟩ | ⟨n, hbt, _⟩
    · exact hr
    · rw [hb] at hbt
      exact absurd hbt (by simp)
  · intro n hb
    rcases (zodOptionalNumber_ok_iff _ _ _).mp h4 with ⟨hbn, _⟩ | ⟨n2, hbt, hr⟩
    · rw [hb] at hbn
      exact absurd hbn (by simp)
    · rw [hb] at hbt
      simp at hbt
      rw [hr, hbt]
  · intro hb
    rcases (zodOptionalNumber_ok_iff _ _ _).mp h5 with ⟨_, hr⟩ | ⟨n, hbt, _⟩
    · exact hr
    · rw [hb] at hbt
      exact absurd hbt (by simp)
  · intro n hb
    rcases (zodOptionalNumber_ok_iff _ _ _).mp h5 with ⟨hbn, _⟩ | ⟨n2, hbt, hr⟩
    · rw [hb] at hbn
      exact absurd hbn (by simp)
    · rw [hb] at hbt
      simp at hbt
      rw [hr, hbt]

/-- A present value that is not a number fails the optional-number field
check with the field's name. -/
theorem zodOptionalNumber_error_of_bad (field : String) (j : JsonVal)
    (hj : ∀ n, j ≠ JsonVal.num n) :
    zodOptionalNumber field (some j) = Except.error field := by
  cases j with
  | num n => exact absurd rfl (hj n)
  | str t => rfl
  | date t => rfl
  | null => rfl
  | bool b => rfl

/-- A successful schema parse implies every numeric field's check
succeeded. -/
theorem schemaParse_ok_validators (u : Nat) (body : RawLogBody)
    (v : InsertWorkoutLog)
    (h : insertWorkoutLogSchemaParse u body = Except.ok v) :
    (∃ r, zodOptionalNumber "completedExercises" body.completedExercises =
      Except.ok r) ∧
    (∃ r, zodOptionalNumber "waterIntake" body.waterIntake = Except.ok r) ∧
    (∃ r, zodOptionalNumber "duration" body.duration = Except.ok r) := by
  unfold insertWorkoutLogSchemaParse at h
  rcases h1 : zodOptionalNullableNumber "workoutId" body.workoutId with e1 | r1 <;>
    rw [h1] at h <;> simp [Bind.bind, Except.bind] at h
  rcases h2 : zodOptionalDate "date" body.date with e2 | r2 <;>
    rw [h2] at h <;> simp [Bind.bind, Except.bind] at h
  rcases h3 : zodOptionalNumber "completedExercises" body.completedExercises
      with e3 | r3 <;>
    rw [h3] at h <;> simp [Bind.bind, Except.bind] at h
  rcases h4 : zodOptionalNumber "waterIntake" body.waterIntake with e4 | r4 <;>
    rw [h4] at h <;> simp [Bind.bind, Except.bind] at h
  rcases h5 : zodOptionalNumber "duration" body.duration with e5 | r5 <;>
    rw [h5] at h <;> simp [Bind.bind, Except.bind] at h
  exact ⟨⟨r3, rfl⟩, ⟨r4, rfl⟩, ⟨r5, rfl⟩⟩

/-- C8 counterexample: a create-log request with waterIntake equal to
the negative number -500 is not rejected — it passes the schema and is
persisted verbatim into the store, so a persisted log's numeric field
can be negative. -/
theorem c8_counterexample :
    postLogsRoute MemStorage.init 0 1
        { waterIntake := some (JsonVal.num (-500)) } =
      Except.ok
        ({ id := 1, userId := 1, workoutId := none, date := 0,
           completedExercises := 0, waterIntake := -500, duration := 0,
           notes := none },
         { workoutLogs := [(1,
             { id := 1, userId := 1, workoutId := none, date := 0,
               completedExercises := 0, waterIntake := -500, duration := 0,
               notes := none })],
           currentWorkoutLogId := 2 }) ∧
    (-500 : Int) < 0 :=
  ⟨rfl, by decide⟩

/-- C8 (amended): a create-log input whose completedExercises,
waterIntake or duration is present but not a number is rejected with a
validation error and never reaches the store, the error naming the
offending field (the first schema field in error when several are
ill-typed); the schema does not check signs, so a persisted record's
numeric fields are exactly the supplied numbers — possibly negative — or
0 when absent, and its date is the supplied timestamp or the current
time when absent. -/
theorem c8_amended_validation (s : MemStorage) (now : Int) (u : Nat)
    (body : RawLogBody) :
    (((∃ j, body.completedExercises = some j ∧ ∀ n, j ≠ JsonVal.num n) ∨
      (∃ j, body.waterIntake = some j ∧ ∀ n, j ≠ JsonVal.num n) ∨
      (∃ j, body.duration = some j ∧ ∀ n, j ≠ JsonVal.num n)) →
      ∃ e, postLogsRoute s now u body = Except.error e) ∧
    ((∃ r, zodOptionalNullableNumber "workoutId" body.workoutId = Except.ok r) →
     (∃ r, zodOptionalDate "date" body.date = Except.ok r) →
     ((∀ j, body.completedExercises = some j → (∀ n, j ≠ JsonVal.num n) →
        postLogsRoute s now u body = Except.error "completedExercises") ∧
      ((∃ r, zodOptionalNumber "completedExercises" body.completedExercises =
          Except.ok r) →
       ((∀ j, body.waterIntake = some j → (∀ n, j ≠ JsonVal.num n) →
          postLogsRoute s now u body = Except.error "waterIntake") ∧
        ((∃ r, zodOptionalNumber "waterIntake" body.waterIntake = Except.ok r) →
         ∀ j, body.duration = some j → (∀ n, j ≠ JsonVal.num n) →
           postLogsRoute s now u body = Except.error "duration"))))) ∧
    (∀ wl s2, postLogsRoute s now u body = Except.ok (wl, s2) →
      wl.userId = u ∧
      (body.waterIntake = none → wl.waterIntake = 0) ∧
      (∀ n, body.waterIntake = some (JsonVal.num n) → wl.waterIntake = n) ∧
      (body.completedExercises = none → wl.completedExercises = 0) ∧
      (∀ n, body.completedExercises = some (JsonVal.num n) →
        wl.completedExercises = n) ∧
      (body.duration = none → wl.duration = 0) ∧
      (∀ n, body.duration = some (JsonVal.num n) → wl.duration = n) ∧
      (body.date = none → wl.date = now) ∧
      (∀ t, body.date = some (JsonVal.date t) → wl.date = t)) := by
  refine ⟨?_, ?_, ?_⟩
  · intro hbad
    rcases hres : postLogsRoute s now u body with e | p
    · exact ⟨e, rfl⟩
    exfalso
    unfold postLogsRoute at hres
    rcases hparse : insertWorkoutLogSchemaParse u body with e2 | v <;>
      rw [hparse] at hres
    · exact absurd hres (by simp)
    obtain ⟨⟨r3, h3⟩, ⟨r4, h4⟩, ⟨r5, h5⟩⟩ :=
      schemaParse_ok_validators u body v hparse
    rcases hbad with ⟨j, hj, hnn⟩ | ⟨j, hj, hnn⟩ | ⟨j, hj, hnn⟩
    · rw [hj, zodOptionalNumber_error_of_bad _ _ hnn] at h3
      exact absurd h3 (by simp)
    · rw [hj, zodOptionalNumber_error_of_bad _ _ hnn] at h4
      exact absurd h4 (by simp)
    · rw [hj, zodOptionalNumber_error_of_bad _ _ hnn] at h5
      exact absurd h5 (by simp)
  · rintro ⟨r1, h1⟩ ⟨r2, h2⟩
    refine ⟨?_, ?_⟩
    · intro j hj hnn
      unfold postLogsRoute insertWorkoutLogSchemaParse
      rw [h1, h2, hj, zodOptionalNumber_error_of_bad _ _ hnn]
      rfl
    rintro ⟨r3, h3⟩
    refine ⟨?_, ?_⟩
    · intro j hj hnn
      unfold postLogsRoute insertWorkoutLogSchemaParse
      rw [h1, h2, h3, hj, zodOptionalNumber_error_of_bad _ _ hnn]
      rfl
    rintro ⟨r4, h4⟩ j hj hnn
    unfold postLogsRoute insertWorkoutLogSchemaParse
    rw [h1, h2, h3, h4, hj, zodOptionalNumber_error_of_bad _ _ hnn]
    rfl
  · intro wl s2 hok
    unfold postLogsRoute at hok
    rcases hparse : insertWorkoutLogSchemaParse u body with e | v <;>
      rw [hparse] at hok
    · exact absurd hok (by simp)
    have hpair : createWorkoutLog s now v = (wl, s2) := by
      simpa using hok
    have hwl : wl = (createWorkoutLog s now v).1 :=
      (congrArg Prod.fst hpair).symm
    obtain ⟨hu, hdn, hds, hcn, hcs, hwn, hws, hdun, hdus⟩ :=
      schemaParse_ok_fields u body v hparse
    subst hwl
    refine ⟨hu, ?_, ?_, ?_, ?_, ?_, ?_, ?_, ?_⟩
    · intro hb
      simp [createWorkoutLog, hwn hb]
    · intro n hb
      simp [createWorkoutLog, hws n hb]
    · intro hb
      simp [createWorkoutLog, hcn hb]
    · intro n hb
      simp [createWorkoutLog, hcs n hb]
    · intro hb
      simp [createWorkoutLog, hdun hb]
    · intro n hb
      simp [createWorkoutLog, hdus n hb]
    · intro hb
      simp [createWorkoutLog, hdn hb]
    · intro t hb
      simp [createWorkoutLog, hds t hb]

/-- C8 witness: a boolean-typed waterIntake alongside a valid date is
rejected with an error naming the waterIntake field. -/
theorem c8_witness :
    postLogsRoute MemStorage.init 0 1
        { date := some (JsonVal.date 5),
          waterIntake := some (JsonVal.bool true) } =
      Except.error "waterIntake" :=
  (((c8_amended_validation MemStorage.init 0 1
        { date := some (JsonVal.date 5),
          waterIntake := some (JsonVal.bool true) }).2.1
      ⟨none, rfl⟩ ⟨some 5, rfl⟩).2 ⟨none, rfl⟩).1
    (JsonVal.bool true) rfl (fun n => by simp)

end FitTrek
